import Mathlib

set_option maxRecDepth 16000

/-!
Verification of the probe/classifier kernel of the EgisTec-EH576
reverse-engineering scripts.

The embedded functions are:
* `AdaptiveCalibration.analyze_capture_quality`
  (src/reverse_engineering/adaptive_calibration.py, lines 61-89);
* `EH575Protocol.analyze_capture_quality`
  (src/reverse_engineering/eh575_calibration_protocol.py, lines 65-85);
* `CaptureFingerprint.send_and_receive`
  (src/reverse_engineering/capture_fingerprint.py, lines 35-58; the
  variants in adaptive_calibration.py lines 35-59 and
  eh575_calibration_protocol.py lines 35-63 have the same control flow,
  differing only in the text of the log lines).

Bytes are modelled as `Fin 256`, buffers as `List (Fin 256)`, Python
float arithmetic as exact rational arithmetic over `ℚ` (every division
and threshold in the source is exactly representable; no rounding
behaviour is at stake in the claims), and the observable effects
(stdout prints, transport calls, exceptions) explicitly, as data.
-/

/-- A byte buffer as returned by `dev.read`: a sequence of bytes. -/
abbrev ByteBuf := List (Fin 256)

/-- The four status labels the classifiers can emit.  Both
`analyze_capture_quality` variants choose among exactly these four
strings; neither source file has an `EMPTY` status. -/
inductive Tier
  | EXCELLENT
  | GOOD
  | FAIR
  | POOR
deriving DecidableEq, Repr

/-- Numeric rank of a status label, with `0` reserved for the
`"No data"` sentinel (see `QualityDesc.level`): POOR is the lowest
label actually assigned, EXCELLENT the highest. -/
def Tier.level : Tier → ℕ
  | .POOR => 1
  | .FAIR => 2
  | .GOOD => 3
  | .EXCELLENT => 4

namespace AdaptiveCalibration

/-- The quantities interpolated into the status string built at
adaptive_calibration.py line 89, together with the chosen status label
and the intermediate ratio `non_zero_bytes / total_bytes` computed at
line 68 (the source multiplies it by 100 to obtain `percentage`). -/
structure Classification where
  non_zero_ratio : ℚ
  percentage : ℚ
  unique_values : ℕ
  entropy : ℚ
  variance : ℚ
  status : Tier
deriving DecidableEq, Repr

/-- The second component of the pair returned by
`analyze_capture_quality`: either the `"No data"` sentinel string
(line 64) or the formatted status string of line 89, abstracted to the
data interpolated into it. -/
inductive QualityDesc
  | noData
  | classified (c : Classification)
deriving DecidableEq, Repr

/-- Rank of an analysis outcome: the `"No data"` sentinel is rank `0`,
below every assigned status label. -/
def QualityDesc.level : QualityDesc → ℕ
  | .noData => 0
  | .classified c => c.status.level

/-- `analyze_capture_quality(data)` of adaptive_calibration.py
(lines 61-89).  Returns the pair `(quality_score, description)`.
`if not data or len(data) < 100` is the emptiness test on the buffer
followed by the length test; the arithmetic of lines 66-78 is over ℚ;
the threshold cascade is lines 80-87. -/
def analyze_capture_quality (data : ByteBuf) : ℚ × QualityDesc :=
  if data = [] ∨ data.length < 100 then
    (0, .noData)
  else
    let non_zero_bytes : ℕ := data.countP (fun b => decide (b ≠ 0))
    let total_bytes : ℕ := data.length
    let percentage : ℚ := ((non_zero_bytes : ℚ) / (total_bytes : ℚ)) * 100
    let unique_values : ℕ := data.dedup.length
    let entropy : ℚ := (unique_values : ℚ) / 256
    let mean : ℚ := (data.map fun b => (b.val : ℚ)).sum / (data.length : ℚ)
    let variance : ℚ :=
      (data.map fun b => ((b.val : ℚ) - mean) ^ 2).sum / (data.length : ℚ)
    let quality_score : ℚ := percentage * entropy * (variance / 100)
    let status : Tier :=
      if percentage > 30 ∧ entropy > 2/5 then .EXCELLENT
      else if percentage > 15 ∧ entropy > 1/5 then .GOOD
      else if percentage > 5 ∧ entropy > 1/10 then .FAIR
      else .POOR
    (quality_score,
      .classified
        { non_zero_ratio := (non_zero_bytes : ℚ) / (total_bytes : ℚ)
          percentage := percentage
          unique_values := unique_values
          entropy := entropy
          variance := variance
          status := status })

/-- State-threaded form of `analyze_capture_quality`: the function
body (lines 61-89) contains no print statement, no file access and no
reference to module-level mutable state, so threading the stdout log
through its translation leaves the log unchanged and the returned
value is the pure result. -/
def analyze_capture_quality_run (stdout : List String) (data : ByteBuf) :
    List String × (ℚ × QualityDesc) :=
  (stdout, analyze_capture_quality data)

end AdaptiveCalibration

namespace EH575Protocol

/-- The quantities interpolated into the status string returned by
`analyze_capture_quality` of eh575_calibration_protocol.py
(lines 78-85), together with the chosen status label and the
intermediate ratio `non_zero_bytes / total_bytes` of line 72. -/
structure Classification where
  non_zero_ratio : ℚ
  percentage : ℚ
  unique_values : ℕ
  entropy : ℚ
  status : Tier
deriving DecidableEq, Repr

/-- The return value of the eh575 variant of
`analyze_capture_quality`: either the bare `"No data"` string
(line 68) or a formatted status string, abstracted to the data
interpolated into it. -/
inductive Quality
  | noData
  | classified (c : Classification)
deriving DecidableEq, Repr

/-- Rank of an outcome of the eh575 variant: the `"No data"` sentinel
is rank `0`, below every assigned status label. -/
def Quality.level : Quality → ℕ
  | .noData => 0
  | .classified c => c.status.level

/-- `analyze_capture_quality(data)` of eh575_calibration_protocol.py
(lines 65-85).  Unlike the adaptive_calibration.py variant it returns
only the status string (no score), computes no variance, and uses a
different threshold cascade (lines 78-85). -/
def analyze_capture_quality (data : ByteBuf) : Quality :=
  if data = [] ∨ data.length < 100 then
    .noData
  else
    let non_zero_bytes : ℕ := data.countP (fun b => decide (b ≠ 0))
    let total_bytes : ℕ := data.length
    let percentage : ℚ := ((non_zero_bytes : ℚ) / (total_bytes : ℚ)) * 100
    let unique_values : ℕ := data.dedup.length
    let entropy : ℚ := (unique_values : ℚ) / 256
    let status : Tier :=
      if percentage > 50 ∧ entropy > 3/10 then .EXCELLENT
      else if percentage > 20 ∧ entropy > 1/10 then .GOOD
      else if percentage > 5 then .FAIR
      else .POOR
    .classified
      { non_zero_ratio := (non_zero_bytes : ℚ) / (total_bytes : ℚ)
        percentage := percentage
        unique_values := unique_values
        entropy := entropy
        status := status }

/-- State-threaded form of the eh575 variant: its body (lines 65-85)
contains no print statement, no file access and no module-level
mutable state, so the stdout log passes through unchanged. -/
def analyze_capture_quality_run (stdout : List String) (data : ByteBuf) :
    List String × Quality :=
  (stdout, analyze_capture_quality data)

end EH575Protocol

namespace CaptureFingerprint

/-- Behaviour of the transport on the single `dev.write(0x01, ...)`
call of capture_fingerprint.py line 39: the write either completes or
raises an exception (pyusb raises `usb.core.USBError`, a subclass of
`Exception`, for every transport fault including a write timeout). -/
inductive WriteBehavior
  | succeeds
  | raises
deriving DecidableEq, Repr

/-- Behaviour of the transport on the single `dev.read(0x82, ...)`
call of line 45: it returns a buffer, raises a `usb.core.USBError`
(whose message does or does not contain the substring `"timeout"` —
the discrimination made at line 52), or raises some other
`Exception`. -/
inductive ReadBehavior
  | returns (data : ByteBuf)
  | raisesUSB (timeout : Bool)
  | raisesOther
deriving DecidableEq, Repr

/-- Whether the read behaviour delivers bytes. -/
def ReadBehavior.delivers : ReadBehavior → Bool
  | .returns _ => true
  | _ => false

/-- The transport stub a `send_and_receive` call runs against: what
its write call and its (at most one) read call would do. -/
structure Transport where
  write : WriteBehavior
  read : ReadBehavior
deriving DecidableEq, Repr

/-- The print statements `send_and_receive` can execute, in source
order: the sent-command line (41), the response line (49), the
read-error line (53) and the send-error line (57). -/
inductive LogEvent
  | sentLog
  | responseLog
  | readErrorLog
  | sendErrorLog
deriving DecidableEq, Repr

/-- A Python exception escaping a call (none ever escapes
`send_and_receive`; the type records that the translation tracks
uncaught exceptions). -/
inductive PyExc
  | exc
deriving DecidableEq, Repr

instance {ε α : Type} [DecidableEq ε] [DecidableEq α] : DecidableEq (Except ε α)
  | .ok a, .ok b =>
      if h : a = b then .isTrue (by rw [h])
      else .isFalse (fun hh => h (Except.ok.inj hh))
  | .ok _, .error _ => .isFalse (fun hh => Except.noConfusion hh)
  | .error _, .ok _ => .isFalse (fun hh => Except.noConfusion hh)
  | .error e, .error f =>
      if h : e = f then .isTrue (by rw [h])
      else .isFalse (fun hh => h (Except.error.inj hh))

/-- Everything observable about one `send_and_receive` call: the value
returned to the caller (or an escaped exception), the lines printed,
and whether the `dev.read` call at line 45 was reached. -/
structure ProbeRun where
  result : Except PyExc (Option ByteBuf)
  log : List LogEvent
  readAttempted : Bool
deriving DecidableEq, Repr

/-- `send_and_receive(dev, cmd, ...)` of capture_fingerprint.py
(lines 35-58), as a function of the transport behaviour (the command
bytes, requested size and timeout value do not influence the control
flow).  Control flow of the source:
outer `try`: `dev.write` (line 39); if it raises, the outer
`except Exception` (line 56) prints the send-error line and returns
`None`.  Otherwise the sent line is printed and the inner `try` runs
`dev.read` (line 45): on success the response line is printed and the
buffer returned; on `usb.core.USBError` the inner handler (lines
51-54) prints the read-error line only when `"timeout"` is not in the
message, and returns `None`; on any other exception the outer handler
(lines 56-58) prints the send-error line and returns `None`. -/
def send_and_receive (t : Transport) : ProbeRun :=
  match t.write with
  | .raises =>
      { result := .ok none, log := [.sendErrorLog], readAttempted := false }
  | .succeeds =>
      match t.read with
      | .returns d =>
          { result := .ok (some d), log := [.sentLog, .responseLog],
            readAttempted := true }
      | .raisesUSB true =>
          { result := .ok none, log := [.sentLog], readAttempted := true }
      | .raisesUSB false =>
          { result := .ok none, log := [.sentLog, .readErrorLog],
            readAttempted := true }
      | .raisesOther =>
          { result := .ok none, log := [.sentLog, .sendErrorLog],
            readAttempted := true }

end CaptureFingerprint

/-- The buffer `bytes([1,2,3,4]*25)` of the spec's test vector: the
four bytes 1,2,3,4 repeated 25 times, 100 bytes in all. -/
def c3buf : ByteBuf := (List.replicate 25 [1, 2, 3, 4]).flatten

section EvalLemmas

/-- Expanding a summed square of deviations over a list of naturals
into cast-free natural sums, so concrete buffers can be evaluated by
kernel reduction. -/
theorem sum_map_sub_sq (l : List ℕ) (μ : ℚ) :
    (l.map fun n : ℕ => ((n : ℚ) - μ) ^ 2).sum
      = ((l.map fun n : ℕ => n * n).sum : ℚ) - 2 * μ * (l.sum : ℚ)
        + (l.length : ℚ) * μ ^ 2 := by
  induction l with
  | nil => simp
  | cons a t ih =>
      simp only [List.map_cons, List.sum_cons, List.length_cons, ih]
      push_cast
      ring

/-- The rational sum of the byte values of a buffer is the cast of the
natural sum. -/
theorem sum_map_fin_cast (data : ByteBuf) :
    (data.map fun b => (b.val : ℚ)).sum = ((data.map Fin.val).sum : ℚ) := by
  rw [show (fun b : Fin 256 => (b.val : ℚ)) = (fun n : ℕ => (n : ℚ)) ∘ Fin.val from rfl,
    ← List.map_map]
  exact (Nat.cast_list_sum _).symm

/-- The summed squared deviation of a buffer from `μ`, reduced to
natural-number sums of the byte values and their squares. -/
theorem sum_map_fin_sub_sq (data : ByteBuf) (μ : ℚ) :
    (data.map fun b => ((b.val : ℚ) - μ) ^ 2).sum
      = (((data.map fun b => b.val * b.val).sum : ℕ) : ℚ)
        - 2 * μ * ((data.map Fin.val).sum : ℚ)
        + (data.length : ℚ) * μ ^ 2 := by
  rw [show (fun b : Fin 256 => ((b.val : ℚ) - μ) ^ 2)
        = (fun n : ℕ => ((n : ℚ) - μ) ^ 2) ∘ Fin.val from rfl,
    ← List.map_map, sum_map_sub_sq, List.map_map, List.length_map]
  rfl

/-- Full evaluation of the adaptive_calibration.py classifier on a
buffer of 100 zero bytes: percentage 0, one distinct value, entropy
1/256, variance 0, score 0, and status POOR (the `elif` cascade of
lines 80-87 falls through to POOR; there is no lower label). -/
theorem analyze_replicate_zero_eval :
    AdaptiveCalibration.analyze_capture_quality (List.replicate 100 (0 : Fin 256))
      = (0, .classified ⟨0, 0, 1, 1/256, 0, .POOR⟩) := by
  have hne : ¬(List.replicate 100 (0 : Fin 256) = []
      ∨ (List.replicate 100 (0 : Fin 256)).length < 100) := by decide
  have hcount : (List.replicate 100 (0 : Fin 256)).countP
      (fun b => decide (b ≠ 0)) = 0 := by decide
  have hlen : (List.replicate 100 (0 : Fin 256)).length = 100 := by decide
  have hdedup : (List.replicate 100 (0 : Fin 256)).dedup.length = 1 := by decide
  have hsum : ((List.replicate 100 (0 : Fin 256)).map Fin.val).sum = 0 := by decide
  have hsq : ((List.replicate 100 (0 : Fin 256)).map
      fun b => b.val * b.val).sum = 0 := by decide
  unfold AdaptiveCalibration.analyze_capture_quality
  rw [if_neg hne]
  simp only [sum_map_fin_cast, sum_map_fin_sub_sq, hcount, hlen, hdedup, hsum, hsq]
  norm_num

/-- Full evaluation of the adaptive_calibration.py classifier on
`c3buf`: every byte non-zero (ratio 1, percentage 100), 4 distinct
values, entropy 4/256 = 1/64, variance 5/4, score 5/256; entropy
misses every threshold of lines 80-87, so the status is POOR. -/
theorem analyze_c3buf_eval :
    AdaptiveCalibration.analyze_capture_quality c3buf
      = (5/256, .classified ⟨1, 100, 4, 1/64, 5/4, .POOR⟩) := by
  have hne : ¬(c3buf = [] ∨ c3buf.length < 100) := by decide
  have hcount : c3buf.countP (fun b => decide (b ≠ 0)) = 100 := by decide
  have hlen : c3buf.length = 100 := by decide
  have hdedup : c3buf.dedup.length = 4 := by decide
  have hsum : (c3buf.map Fin.val).sum = 250 := by decide
  have hsq : (c3buf.map fun b => b.val * b.val).sum = 750 := by decide
  unfold AdaptiveCalibration.analyze_capture_quality
  rw [if_neg hne]
  simp only [sum_map_fin_cast, sum_map_fin_sub_sq, hcount, hlen, hdedup, hsum, hsq]
  norm_num

/-- Full evaluation of the eh575_calibration_protocol.py classifier on
`c3buf`: ratio 1, percentage 100, 4 distinct values, entropy 1/64;
the cascade of lines 78-85 lands on FAIR (`percentage > 5` with no
entropy condition). -/
theorem analyze575_c3buf_eval :
    EH575Protocol.analyze_capture_quality c3buf
      = .classified ⟨1, 100, 4, 1/64, .FAIR⟩ := by
  have hne : ¬(c3buf = [] ∨ c3buf.length < 100) := by decide
  have hcount : c3buf.countP (fun b => decide (b ≠ 0)) = 100 := by decide
  have hlen : c3buf.length = 100 := by decide
  have hdedup : c3buf.dedup.length = 4 := by decide
  unfold EH575Protocol.analyze_capture_quality
  rw [if_neg hne]
  simp only [hcount, hlen, hdedup]
  norm_num

end EvalLemmas

/-- C1 (counterexample): the claim puts both the empty buffer and the
100-zero-byte buffer at the lowest qualitative tier (EMPTY).  In the
code, the empty buffer gets the `"No data"` sentinel (rank 0, with no
ratio or distinct-count fields at all), while the 100-zero-byte buffer
is classified with status POOR (rank 1): the two inputs do not land on
one common lowest tier, and no EMPTY status exists in the source. -/
theorem analyze_zero_buffer_above_empty_outcome :
    (AdaptiveCalibration.analyze_capture_quality
      (List.replicate 100 (0 : Fin 256))).2.level = 1 ∧
    (AdaptiveCalibration.analyze_capture_quality ([] : ByteBuf)).2.level = 0 := by
  constructor
  · rw [analyze_replicate_zero_eval]
    rfl
  · decide

/-- C1 (amended): on the empty buffer `analyze_capture_quality`
returns the sentinel `(0, "No data")` — the rank-0 outcome, carrying
no non-zero ratio and no distinct-value count — and on 100 zero bytes
it returns percentage 0, one distinct value, and status POOR, which is
the lowest status label the code ever assigns (the code has no EMPTY
tier). -/
theorem analyze_empty_and_zero_buffer_results :
    AdaptiveCalibration.analyze_capture_quality ([] : ByteBuf) = (0, .noData) ∧
    AdaptiveCalibration.analyze_capture_quality (List.replicate 100 (0 : Fin 256))
      = (0, .classified ⟨0, 0, 1, 1/256, 0, .POOR⟩) ∧
    ∀ t : Tier, Tier.POOR.level ≤ t.level := by
  refine ⟨by decide, analyze_replicate_zero_eval, ?_⟩
  intro t
  cases t <;> simp [Tier.level]

/-- C1 witness: the amended theorem's empty-buffer conjunct, and its
lowest-label conjunct instantiated at the EXCELLENT label. -/
theorem analyze_empty_and_zero_buffer_results_witness :
    AdaptiveCalibration.analyze_capture_quality ([] : ByteBuf) = (0, .noData) ∧
    Tier.POOR.level ≤ Tier.EXCELLENT.level :=
  ⟨analyze_empty_and_zero_buffer_results.1,
    analyze_empty_and_zero_buffer_results.2.2 .EXCELLENT⟩

/-- C3: on the buffer `bytes([1,2,3,4]*25)` the adaptive classifier
yields non-zero ratio 1 (percentage 100), 4 distinct values, and the
status POOR — an actual classification, strictly above the rank-0
`"No data"` outcome that plays the role of the spec's EMPTY tier — and
the eh575 classifier yields ratio 1, 4 distinct values, and FAIR,
likewise strictly above rank 0. -/
theorem c3buf_classification_results :
    AdaptiveCalibration.analyze_capture_quality c3buf
      = (5/256, .classified ⟨1, 100, 4, 1/64, 5/4, .POOR⟩) ∧
    0 < (AdaptiveCalibration.analyze_capture_quality c3buf).2.level ∧
    EH575Protocol.analyze_capture_quality c3buf
      = .classified ⟨1, 100, 4, 1/64, .FAIR⟩ ∧
    0 < (EH575Protocol.analyze_capture_quality c3buf).level := by
  refine ⟨analyze_c3buf_eval, ?_, analyze575_c3buf_eval, ?_⟩
  · rw [analyze_c3buf_eval]
    decide
  · rw [analyze575_c3buf_eval]
    decide

/-- C6 (counterexample): the claim asserts that for every buffer,
in particular the empty one, `classify(b).non_zero_ratio` is defined
and equals 0 exactly on empty-or-all-zero buffers.  On the empty
buffer the code does not produce a classification at all: it returns
the bare `"No data"` sentinel, which carries no `non_zero_ratio`
field, so the biconditional has no witness at `b = []`. -/
theorem empty_buffer_yields_no_classification :
    (AdaptiveCalibration.analyze_capture_quality ([] : ByteBuf)).2
      = AdaptiveCalibration.QualityDesc.noData ∧
    AdaptiveCalibration.QualityDesc.noData.level = 0 := by decide

/-- C6 (amended): whenever `analyze_capture_quality` does produce a
classification (exactly the buffers of length at least 100), its
non-zero ratio is 0 if and only if every byte of the buffer is zero;
shorter buffers get the `"No data"` sentinel and have no ratio. -/
theorem non_zero_ratio_eq_zero_iff_all_bytes_zero (b : ByteBuf)
    (c : AdaptiveCalibration.Classification)
    (h : (AdaptiveCalibration.analyze_capture_quality b).2 = .classified c) :
    c.non_zero_ratio = 0 ↔ ∀ x ∈ b, x = 0 := by
  unfold AdaptiveCalibration.analyze_capture_quality at h
  by_cases hc : b = [] ∨ b.length < 100
  · rw [if_pos hc] at h
    exact absurd h (by simp)
  · rw [if_neg hc] at h
    push_neg at hc
    obtain ⟨hb, hlen⟩ := hc
    dsimp only at h
    obtain rfl := (AdaptiveCalibration.QualityDesc.classified.inj h).symm
    dsimp only
    rw [div_eq_zero_iff]
    have hlen' : (b.length : ℚ) ≠ 0 := by
      have h0 : b.length ≠ 0 := by omega
      exact_mod_cast h0
    simp only [hlen', or_false, Nat.cast_eq_zero, List.countP_eq_zero]
    simp

/-- C6 witness: the amended theorem applied to the 100-zero-byte
buffer: it is classified, and its non-zero ratio is 0. -/
theorem non_zero_ratio_eq_zero_iff_all_bytes_zero_witness :
    ((AdaptiveCalibration.analyze_capture_quality
        (List.replicate 100 (0 : Fin 256))).2
      = .classified ⟨0, 0, 1, 1/256, 0, .POOR⟩) ∧
    (⟨0, 0, 1, 1/256, 0, .POOR⟩ :
      AdaptiveCalibration.Classification).non_zero_ratio = 0 := by
  have h : (AdaptiveCalibration.analyze_capture_quality
      (List.replicate 100 (0 : Fin 256))).2
      = .classified ⟨0, 0, 1, 1/256, 0, .POOR⟩ := by
    rw [analyze_replicate_zero_eval]
  exact ⟨h, (non_zero_ratio_eq_zero_iff_all_bytes_zero _ _ h).2
    (fun x hx => List.eq_of_mem_replicate hx)⟩

/-- C7: every classification the adaptive classifier produces has a
non-zero ratio in the closed interval [0,1] and a distinct-value count
of at most 256. -/
theorem classification_ratio_bounds (b : ByteBuf)
    (c : AdaptiveCalibration.Classification)
    (h : (AdaptiveCalibration.analyze_capture_quality b).2 = .classified c) :
    0 ≤ c.non_zero_ratio ∧ c.non_zero_ratio ≤ 1 ∧ c.unique_values ≤ 256 := by
  unfold AdaptiveCalibration.analyze_capture_quality at h
  by_cases hc : b = [] ∨ b.length < 100
  · rw [if_pos hc] at h
    exact absurd h (by simp)
  · rw [if_neg hc] at h
    push_neg at hc
    obtain ⟨hb, hlen⟩ := hc
    dsimp only at h
    obtain rfl := (AdaptiveCalibration.QualityDesc.classified.inj h).symm
    refine ⟨?_, ?_, ?_⟩
    · exact div_nonneg (Nat.cast_nonneg _) (Nat.cast_nonneg _)
    · rw [div_le_one (by exact_mod_cast Nat.lt_of_lt_of_le (by norm_num) hlen :
        (0 : ℚ) < b.length)]
      exact_mod_cast List.countP_le_length _
    · simpa using (List.nodup_dedup b).length_le_card

/-- C7 witness: the bounds theorem applied to the 100-zero-byte
buffer and its concrete classification. -/
theorem classification_ratio_bounds_witness :
    ((AdaptiveCalibration.analyze_capture_quality
        (List.replicate 100 (0 : Fin 256))).2
      = .classified ⟨0, 0, 1, 1/256, 0, .POOR⟩) ∧
    (0 ≤ (⟨0, 0, 1, 1/256, 0, .POOR⟩ :
        AdaptiveCalibration.Classification).non_zero_ratio ∧
      (⟨0, 0, 1, 1/256, 0, .POOR⟩ :
        AdaptiveCalibration.Classification).non_zero_ratio ≤ 1 ∧
      (⟨0, 0, 1, 1/256, 0, .POOR⟩ :
        AdaptiveCalibration.Classification).unique_values ≤ 256) := by
  have h : (AdaptiveCalibration.analyze_capture_quality
      (List.replicate 100 (0 : Fin 256))).2
      = .classified ⟨0, 0, 1, 1/256, 0, .POOR⟩ := by
    rw [analyze_replicate_zero_eval]
  exact ⟨h, classification_ratio_bounds _ _ h⟩

/-- C8: both classifiers are pure and deterministic: threading any
stdout state through a call leaves it unchanged (no I/O, no side
effects), and the returned value does not depend on that ambient
state (two calls on the same buffer yield identical results). -/
theorem classifier_pure_and_deterministic (out out' : List String)
    (data : ByteBuf) :
    (AdaptiveCalibration.analyze_capture_quality_run out data).1 = out ∧
    (AdaptiveCalibration.analyze_capture_quality_run out data).2
      = (AdaptiveCalibration.analyze_capture_quality_run out' data).2 ∧
    (EH575Protocol.analyze_capture_quality_run out data).1 = out ∧
    (EH575Protocol.analyze_capture_quality_run out data).2
      = (EH575Protocol.analyze_capture_quality_run out' data).2 :=
  ⟨rfl, rfl, rfl, rfl⟩

/-- C8 witness: the purity theorem at the concrete buffer `c3buf` with
the empty stdout state and a one-line stdout state. -/
theorem classifier_pure_and_deterministic_witness :
    (AdaptiveCalibration.analyze_capture_quality_run
      ([] : List String) c3buf).1 = [] ∧
    (AdaptiveCalibration.analyze_capture_quality_run ([] : List String) c3buf).2
      = (AdaptiveCalibration.analyze_capture_quality_run ["line"] c3buf).2 ∧
    (EH575Protocol.analyze_capture_quality_run ([] : List String) c3buf).1 = [] ∧
    (EH575Protocol.analyze_capture_quality_run ([] : List String) c3buf).2
      = (EH575Protocol.analyze_capture_quality_run ["line"] c3buf).2 :=
  classifier_pure_and_deterministic [] ["line"] c3buf

/-- C9: every buffer shorter than 100 bytes gets the sentinel — the
pair `(0, "No data")` from the adaptive classifier and the bare
`"No data"` string from the eh575 one — and every buffer of length at
least 100 gets an actual classification, never the sentinel. -/
theorem short_buffer_sentinel (data : ByteBuf) :
    (data.length < 100 →
      AdaptiveCalibration.analyze_capture_quality data = (0, .noData) ∧
      EH575Protocol.analyze_capture_quality data = .noData) ∧
    (100 ≤ data.length →
      (AdaptiveCalibration.analyze_capture_quality data).2
        ≠ AdaptiveCalibration.QualityDesc.noData ∧
      EH575Protocol.analyze_capture_quality data ≠ .noData) := by
  constructor
  · intro h
    unfold AdaptiveCalibration.analyze_capture_quality
      EH575Protocol.analyze_capture_quality
    rw [if_pos (Or.inr h), if_pos (Or.inr h)]
    exact ⟨rfl, rfl⟩
  · intro h
    have hne : ¬(data = [] ∨ data.length < 100) := by
      rintro (rfl | hlt)
      · simp at h
      · omega
    unfold AdaptiveCalibration.analyze_capture_quality
      EH575Protocol.analyze_capture_quality
    rw [if_neg hne, if_neg hne]
    exact ⟨by simp, by simp⟩

/-- C9 witness: the sentinel branch at the 1-byte buffer `[1]`
(non-empty, non-zero, shorter than 100 bytes), and the classified
branch at the 100-zero-byte buffer. -/
theorem short_buffer_sentinel_witness :
    (AdaptiveCalibration.analyze_capture_quality [(1 : Fin 256)] = (0, .noData) ∧
      EH575Protocol.analyze_capture_quality [(1 : Fin 256)] = .noData) ∧
    ((AdaptiveCalibration.analyze_capture_quality
        (List.replicate 100 (0 : Fin 256))).2
        ≠ AdaptiveCalibration.QualityDesc.noData ∧
      EH575Protocol.analyze_capture_quality (List.replicate 100 (0 : Fin 256))
        ≠ .noData) :=
  ⟨(short_buffer_sentinel [(1 : Fin 256)]).1 (by decide),
    (short_buffer_sentinel (List.replicate 100 (0 : Fin 256))).2 (by decide)⟩

/-- C2 (counterexample): the claim says a timeout yields an outcome
distinct from every other transport error, and that non-timeout errors
are surfaced.  In the code both a read timeout and a non-timeout read
error make `send_and_receive` return the same value `None`: the error
is downgraded to the default and the caller cannot tell the two
apart. -/
theorem timeout_result_equals_read_error_result :
    (CaptureFingerprint.send_and_receive ⟨.succeeds, .raisesUSB true⟩).result
      = (CaptureFingerprint.send_and_receive
          ⟨.succeeds, .raisesUSB false⟩).result ∧
    (CaptureFingerprint.send_and_receive
        ⟨.succeeds, .raisesUSB false⟩).result = .ok none := by decide

/-- C2 (amended): after a successful write, `send_and_receive` returns
`None` exactly when the read delivers no bytes — timeout, read error
and any other exception all collapse to the same returned value — and
the only place a timeout is distinguished from a non-timeout read
error is the log: the read-error line is printed exactly for a
non-timeout `USBError`. -/
theorem failure_results_none_log_distinguishes
    (t : CaptureFingerprint.Transport) (hw : t.write = .succeeds) :
    ((CaptureFingerprint.send_and_receive t).result = .ok none
      ↔ t.read.delivers = false) ∧
    (CaptureFingerprint.LogEvent.readErrorLog
        ∈ (CaptureFingerprint.send_and_receive t).log
      ↔ t.read = .raisesUSB false) := by
  obtain ⟨w, r⟩ := t
  dsimp only at hw
  subst hw
  rcases r with d | tm | _
  · simp [CaptureFingerprint.send_and_receive,
      CaptureFingerprint.ReadBehavior.delivers]
  · cases tm <;>
      simp [CaptureFingerprint.send_and_receive,
        CaptureFingerprint.ReadBehavior.delivers]
  · simp [CaptureFingerprint.send_and_receive,
      CaptureFingerprint.ReadBehavior.delivers]

/-- C2 witness: the amended theorem at the transport whose read raises
a non-timeout `USBError`. -/
theorem failure_results_none_log_distinguishes_witness :
    ((CaptureFingerprint.send_and_receive
        ⟨.succeeds, .raisesUSB false⟩).result = .ok none
      ↔ (CaptureFingerprint.ReadBehavior.raisesUSB false).delivers = false) ∧
    (CaptureFingerprint.LogEvent.readErrorLog
        ∈ (CaptureFingerprint.send_and_receive
            ⟨.succeeds, .raisesUSB false⟩).log
      ↔ CaptureFingerprint.ReadBehavior.raisesUSB false = .raisesUSB false) :=
  failure_results_none_log_distinguishes ⟨.succeeds, .raisesUSB false⟩ rfl

/-- C4 (counterexample): the claim says a failed write returns the
distinguished outcome `Error(SendFailed)`.  In the code a failed write
returns plain `None` — the very same value a read timeout produces —
so no `SendFailed` error value is surfaced. -/
theorem write_failure_result_equals_timeout_result :
    (CaptureFingerprint.send_and_receive ⟨.raises, .returns []⟩).result
      = (CaptureFingerprint.send_and_receive
          ⟨.succeeds, .raisesUSB true⟩).result ∧
    (CaptureFingerprint.send_and_receive
        ⟨.raises, .returns []⟩).result = .ok none := by decide

/-- C4 (amended): if the transport write raises, `send_and_receive`
prints the send-error line and returns `None` — not a distinguished
`SendFailed` value — and the read endpoint is never touched: the
outcome is the same whatever the read would have done, and the read is
not attempted. -/
theorem write_raises_returns_none_without_read
    (r : CaptureFingerprint.ReadBehavior) :
    CaptureFingerprint.send_and_receive ⟨.raises, r⟩
      = { result := .ok none, log := [.sendErrorLog],
          readAttempted := false } := rfl

/-- C4 witness: the amended theorem at a transport whose read would
have raised a timeout `USBError`, had it been attempted. -/
theorem write_raises_returns_none_without_read_witness :
    CaptureFingerprint.send_and_receive ⟨.raises, .raisesUSB true⟩
      = { result := .ok none, log := [.sendErrorLog],
          readAttempted := false } :=
  write_raises_returns_none_without_read (.raisesUSB true)

/-- C5 (counterexample): the claim says a timeout yields the outcome
`TimedOut`, which is not an error outcome.  In the code the value
returned after a read timeout is identical to the value returned when
the write itself fails: there is no distinct `TimedOut` value. -/
theorem timeout_result_equals_send_failure_result :
    (CaptureFingerprint.send_and_receive ⟨.succeeds, .raisesUSB true⟩).result
      = (CaptureFingerprint.send_and_receive
          ⟨.raises, .raisesOther⟩).result := by decide

/-- C5 (amended): when the read raises a timeout `USBError`,
`send_and_receive` returns `None` without raising (the result is a
normal return, not an escaped exception) and prints no error line —
but that `None` is the same value every failure produces, not a
distinct `TimedOut` outcome. -/
theorem read_timeout_returns_ok_none_no_error_log
    (t : CaptureFingerprint.Transport) (hw : t.write = .succeeds)
    (hr : t.read = .raisesUSB true) :
    CaptureFingerprint.send_and_receive t
      = { result := .ok none, log := [.sentLog], readAttempted := true } := by
  obtain ⟨w, r⟩ := t
  dsimp only at hw hr
  subst hw
  subst hr
  rfl

/-- C5 witness: the amended theorem at the transport whose read raises
the timeout `USBError`. -/
theorem read_timeout_returns_ok_none_no_error_log_witness :
    CaptureFingerprint.send_and_receive ⟨.succeeds, .raisesUSB true⟩
      = { result := .ok none, log := [.sentLog], readAttempted := true } :=
  read_timeout_returns_ok_none_no_error_log
    ⟨.succeeds, .raisesUSB true⟩ rfl rfl

/-- C10: `send_and_receive` is total with respect to transport
failures: no exception ever escapes to the caller (the result is
always a normal return), and whenever the write raises or the read
fails to deliver bytes, the returned value is `None`. -/
theorem send_and_receive_never_raises_returns_none
    (t : CaptureFingerprint.Transport) :
    (CaptureFingerprint.send_and_receive t).result
      ≠ .error CaptureFingerprint.PyExc.exc ∧
    ((t.write = .raises ∨ t.read.delivers = false) →
      (CaptureFingerprint.send_and_receive t).result = .ok none) := by
  obtain ⟨w, r⟩ := t
  cases w <;> rcases r with d | tm | _ <;> try cases tm
  all_goals
    simp [CaptureFingerprint.send_and_receive,
      CaptureFingerprint.ReadBehavior.delivers]

/-- C10 witness: the totality theorem at a transport whose write
raises. -/
theorem send_and_receive_never_raises_returns_none_witness :
    (CaptureFingerprint.send_and_receive ⟨.raises, .returns []⟩).result
      ≠ .error CaptureFingerprint.PyExc.exc ∧
    (CaptureFingerprint.send_and_receive ⟨.raises, .returns []⟩).result
      = .ok none :=
  ⟨(send_and_receive_never_raises_returns_none ⟨.raises, .returns []⟩).1,
    (send_and_receive_never_raises_returns_none ⟨.raises, .returns []⟩).2
      (Or.inl rfl)⟩

